import Mathlib

set_option autoImplicit false
set_option maxHeartbeats 1000000

/-!
Shallow embedding of `async-graphql-actix-web/src/lib.rs`: the actix-web
HTTP handler that adapts raw HTTP requests (JSON and multipart upload
bodies) into structured GraphQL operations for the execution engine.

External collaborators (the execution engine `Schema`/`QueryBuilder`,
`serde_json`, the `mime` parser, the multipart framing layer, the
websocket transport and the playground page generator) are modelled as
abstract function parameters bundled in the `Ext` structure; the code of
this repository (`get_content_type`, `read_multipart`, the body of
`handle_request` and of `HandlerBuilder::build`) is translated directly.

Besides its result, every translated function also reports a trace of
observable events (fields pulled from the multipart stream, chunk
buffering with the buffer size reached, hook application, upload
attachment, execution) so that ordering and resource claims can be
stated; the trace is pure instrumentation and never influences control
flow.
-/

namespace AGW

/-- HTTP method of an incoming request. -/
inductive HttpMethod where
  | GET
  | POST
  | other (s : String)
deriving DecidableEq

/-- Value of an HTTP header: either a valid UTF-8 string (for which the
Rust `HeaderValue::to_str` succeeds) or opaque non-UTF-8 bytes (for which
it fails). -/
inductive HeaderValue where
  | str (s : String)
  | bytes (bs : List Nat)
deriving DecidableEq

/-- The two headers the handler reads: `Content-Type` and `Upgrade`. -/
structure Headers where
  contentType : Option HeaderValue
  upgrade : Option HeaderValue
deriving DecidableEq

/-- Projection of `actix_web::HttpRequest` onto what the handler inspects. -/
structure HttpRequest where
  method : HttpMethod
  headers : Headers
deriving DecidableEq

/-- A parsed media type; only its essence (type "/" subtype, parameters
stripped) is inspected by the handler. -/
structure Mime where
  essence : String
deriving DecidableEq

/-- An actix-web error value: the HTTP status it renders to plus its
message. `ErrorBadRequest` makes status 400, `ErrorPayloadTooLarge` 413,
`ErrorUnsupportedMediaType` 415. -/
structure HttpError where
  status : Nat
  message : String
deriving DecidableEq

/-- Rust `actix_web::error::ErrorBadRequest`. -/
def errorBadRequest (msg : String) : HttpError := ⟨400, msg⟩

/-- Rust `actix_web::error::ErrorPayloadTooLarge`. -/
def errorPayloadTooLarge (msg : String) : HttpError := ⟨413, msg⟩

/-- Rust `actix_web::error::ErrorUnsupportedMediaType`. -/
def errorUnsupportedMediaType (msg : String) : HttpError := ⟨415, msg⟩

instance exceptDecEq {E D : Type} [DecidableEq E] [DecidableEq D] :
    DecidableEq (Except E D) := fun x y =>
  match x, y with
  | Except.ok a, Except.ok b =>
    if h : a = b then Decidable.isTrue (congrArg Except.ok h)
    else Decidable.isFalse (fun hc => h (Except.ok.inj hc))
  | Except.error a, Except.error b =>
    if h : a = b then Decidable.isTrue (congrArg Except.error h)
    else Decidable.isFalse (fun hc => h (Except.error.inj hc))
  | Except.ok _, Except.error _ =>
    Decidable.isFalse (fun hc => Except.noConfusion hc)
  | Except.error _, Except.ok _ =>
    Decidable.isFalse (fun hc => Except.noConfusion hc)

/-- The `name` and `filename` parameters of a multipart field's
`Content-Disposition` header. -/
structure ContentDisposition where
  name : Option String
  filename : Option String
deriving DecidableEq

/-- One multipart field as produced by the (external) `actix_multipart`
framing layer: an optional content disposition, a content type, and a
stream of chunks, each either bytes or a stream error. -/
structure Field where
  disposition : Option ContentDisposition
  contentType : String
  chunks : List (Except String (List Nat))
deriving DecidableEq

/-- Response body of the handler: empty (`finish()`), an HTML page, or the
JSON rendering of a `GQLResponse` (the engine's result or error). -/
inductive ResponseBody (E D : Type) where
  | empty
  | html (s : String)
  | json (r : Except E D)
deriving DecidableEq

/-- An `actix_web::HttpResponse` as far as the handler constructs one:
status, optional `Cache-Control` header, and body. -/
structure HttpResponse (E D : Type) where
  status : Nat
  cacheControl : Option String
  body : ResponseBody E D
deriving DecidableEq

/-- Observable events of one request's processing, reported alongside the
result as pure instrumentation. `chunkBuffered c t` records that a chunk
of `c` bytes was appended to a file field's buffer, which then held `t`
bytes; `fieldConsumed` records one `multipart.next()` that yielded a
field; `fileFieldDone n` records the completion (buffering plus
attachment) of the file field named `n`, at which the Rust code
increments `file_count`. -/
inductive Event where
  | fieldConsumed
  | chunkBuffered (chunkLen : Nat) (totalLen : Nat)
  | hookApplied
  | uploadSet (varPath : String)
  | fileFieldDone (name : String)
  | executed
deriving DecidableEq

/-- The external collaborators, bundled: the `mime` parser, `serde_json`
deserializers for the `operations` and `map` parts, and the execution
engine's surface (`GQLRequest::into_query_builder`, `QueryBuilder`'s
`is_upload`, `cache_control().value()`, `set_upload` and `execute`), the
configured `on_request` hook, the playground page generator, and the
websocket transport's start result. -/
structure Ext (GQLReq B E D : Type) where
  parseMime : String → Option Mime
  parseGQLRequest : List Nat → Except String GQLReq
  parseUploadMap : List Nat → Except String (List (String × List String))
  intoQueryBuilder : GQLReq → Except E B
  isUpload : B → Bool
  cacheControl : B → Option String
  setUpload : B → String → String → Option String → List Nat → B
  execute : B → Except E D
  onRequest : Option (HttpRequest → B → B)
  playgroundSource : String → Option String → String
  wsStart : Except HttpError (HttpResponse E D)

/-- The request body, under the two interpretations the handler may give
it: as a multipart field stream (`Multipart::from_request`) or as a JSON
`GQLRequest` (`web::Json::from_request`); both extractors are external
and may fail with an actix error. -/
structure Payload (GQLReq : Type) where
  asMultipart : Except HttpError (List (Except HttpError Field))
  asJson : Except HttpError GQLReq

/-- Configuration held by `HandlerBuilder`: limits and feature flags. -/
structure HandlerConfig where
  maxFileSize : Nat
  maxFileCount : Nat
  enableSubscription : Bool
  enableUi : Option (String × Option String)

variable {GQLReq B E D : Type}

/-- Translation of `get_content_type` (lib.rs lines 314-325): look up the
`Content-Type` header, require it to be UTF-8 and to parse as a media
type, else fail with an unsupported-media-type error. -/
def get_content_type (parseMime : String → Option Mime) (headers : Headers) :
    Except HttpError Mime :=
  match headers.contentType with
  | some (HeaderValue.str s) =>
    match parseMime s with
    | some ct => Except.ok ct
    | none => Except.error (errorUnsupportedMediaType "unsupported media type")
  | some (HeaderValue.bytes _) =>
    Except.error (errorUnsupportedMediaType "unsupported media type")
  | none => Except.error (errorUnsupportedMediaType "unsupported media type")

/-- Inner chunk loop of `read_multipart` (lib.rs lines 339-343): buffer
all chunks of a field with no size limit; a chunk error becomes a 400. -/
def read_field_chunks : List Nat → List (Except String (List Nat)) →
    Except HttpError (List Nat)
  | data, [] => Except.ok data
  | _, Except.error msg :: _ => Except.error (errorBadRequest msg)
  | data, Except.ok part :: rest => read_field_chunks (data ++ part) rest

/-- Translation of `read_multipart` (lib.rs lines 327-356): pull the next
field from the stream, require a content disposition carrying a name equal
to the expected `name`, then buffer the field's chunks. Returns the
result, the unconsumed remainder of the stream, and the trace. -/
def read_multipart (multipart : List (Except HttpError Field)) (name : String) :
    Except HttpError (List Nat) × List (Except HttpError Field) × List Event :=
  match multipart with
  | [] => (Except.error (errorBadRequest "bad request"), [], [])
  | Except.error e :: rest => (Except.error e, rest, [Event.fieldConsumed])
  | Except.ok field :: rest =>
    match field.disposition with
    | none =>
      (Except.error (errorBadRequest "bad request"), rest, [Event.fieldConsumed])
    | some content_disposition =>
      match content_disposition.name with
      | none =>
        (Except.error (errorBadRequest "missing \"operations\""), rest,
         [Event.fieldConsumed])
      | some current_name =>
        if current_name ≠ name then
          (Except.error (errorBadRequest ("expect \"" ++ name ++ "\"")), rest,
           [Event.fieldConsumed])
        else
          match read_field_chunks [] field.chunks with
          | Except.error e => (Except.error e, rest, [Event.fieldConsumed])
          | Except.ok data => (Except.ok data, rest, [Event.fieldConsumed])

/-- Inner chunk loop of the file-field reader (lib.rs lines 236-246):
extend the buffer with each chunk and fail with 413 as soon as the buffer
exceeds `max_file_size`; remaining chunks are then not consumed. The trace
records, for every chunk appended, the chunk length and the buffer length
it produced. -/
def read_file_data (max_file_size : Nat) : List Nat →
    List (Except String (List Nat)) → Except HttpError (List Nat) × List Event
  | data, [] => (Except.ok data, [])
  | _, Except.error msg :: _ => (Except.error (errorBadRequest msg), [])
  | data, Except.ok part :: rest =>
    if (data ++ part).length > max_file_size then
      (Except.error (errorPayloadTooLarge "payload too large"),
       [Event.chunkBuffered part.length (data ++ part).length])
    else
      match read_file_data max_file_size (data ++ part) rest with
      | (r, evs) =>
        (r, Event.chunkBuffered part.length (data ++ part).length :: evs)

/-- The `for var_path in var_paths` loop (lib.rs lines 250-257): attach
the same blob at every variable path listed for the field. -/
def setUploads (ext : Ext GQLReq B E D) (filename content_type : String)
    (data : List Nat) : B → List String → B
  | builder, [] => builder
  | builder, p :: ps =>
    setUploads ext filename content_type data
      (ext.setUpload builder p filename (some content_type) data) ps

/-- Rust `HashMap::remove`: return the value stored under `k` (if any)
together with the map without that entry. Keys of a deserialized
`HashMap` are unique, so removing the first match is exact. -/
def hmRemove (k : String) : List (String × List String) →
    Option (List String) × List (String × List String)
  | [] => (none, [])
  | (k', v) :: rest =>
    if k' = k then (some v, rest)
    else
      match hmRemove k rest with
      | (r, rest') => (r, (k', v) :: rest')

/-- Body of the file-field loop (lib.rs lines 228-272) for one field:
require a content disposition with both name and filename, require the
name to be a key of the remaining upload map (removing it), buffer the
field under the size limit, and attach the blob at every mapped variable
path. -/
def process_file_field (ext : Ext GQLReq B E D) (max_file_size : Nat)
    (builder : B) (map : List (String × List String)) (field : Field) :
    Except HttpError (B × List (String × List String) × String) × List Event :=
  match field.disposition with
  | none => (Except.error (errorBadRequest "bad request"), [])
  | some content_disposition =>
    match content_disposition.name, content_disposition.filename with
    | some name, some filename =>
      match hmRemove name map with
      | (none, _) => (Except.error (errorBadRequest "bad request"), [])
      | (some var_paths, map') =>
        match read_file_data max_file_size [] field.chunks with
        | (Except.error e, evs) => (Except.error e, evs)
        | (Except.ok data, evs) =>
          (Except.ok
            (setUploads ext filename field.contentType data builder var_paths,
             map', name),
           evs ++ var_paths.map Event.uploadSet)
    | _, _ => (Except.error (errorBadRequest "bad request"), [])

/-- The `while let Some(field) = multipart.next().await` file loop
(lib.rs lines 226-273): process each remaining field as a file field,
incrementing `file_count` after each and failing with 413 once it exceeds
`max_file_count`. Returns the final builder and the remaining (not yet
matched) upload map. -/
def read_files (ext : Ext GQLReq B E D) (max_file_size max_file_count : Nat) :
    B → List (String × List String) → Nat → List (Except HttpError Field) →
    Except HttpError (B × List (String × List String)) × List Event
  | builder, map, _, [] => (Except.ok (builder, map), [])
  | _, _, _, Except.error e :: _ => (Except.error e, [Event.fieldConsumed])
  | builder, map, file_count, Except.ok field :: rest =>
    match process_file_field ext max_file_size builder map field with
    | (Except.error e, evs) => (Except.error e, Event.fieldConsumed :: evs)
    | (Except.ok (builder', map', name), evs) =>
      if file_count + 1 > max_file_count then
        (Except.error (errorPayloadTooLarge "payload too large"),
         Event.fieldConsumed :: (evs ++ [Event.fileFieldDone name]))
      else
        match read_files ext max_file_size max_file_count builder' map'
            (file_count + 1) rest with
        | (r, evs') =>
          (r, (Event.fieldConsumed :: (evs ++ [Event.fileFieldDone name])) ++ evs')

/-- Rendering `web::Json(GQLResponse(r))`: a 200 response whose body is
the JSON encoding of the engine result, with no `Cache-Control` header. -/
def jsonResponse (r : Except E D) : HttpResponse E D :=
  { status := 200, cacheControl := none, body := ResponseBody.json r }

/-- Application of the configured `on_request` hook (lib.rs lines 215-217
and 290-292): when present it is called once with the request and the
builder and its result replaces the builder. -/
def applyHook (ext : Ext GQLReq B E D) (req : HttpRequest) (builder : B) :
    B × List Event :=
  match ext.onRequest with
  | some f => (f req builder, [Event.hookApplied])
  | none => (builder, [])

/-- The multipart branch of `handle_request` (lib.rs lines 193-281): read
the `operations` field and parse it, read the `map` field and parse it,
build the query builder (an engine rejection renders as a 200 structured
error), apply the hook, require the builder to be an upload operation,
run the file loop, require the upload map to be exhausted, and execute. -/
def handle_multipart (ext : Ext GQLReq B E D)
    (max_file_size max_file_count : Nat) (req : HttpRequest)
    (multipart : List (Except HttpError Field)) :
    Except HttpError (HttpResponse E D) × List Event :=
  match read_multipart multipart "operations" with
  | (Except.error e, _, evs) => (Except.error e, evs)
  | (Except.ok data, mp1, evs1) =>
    match ext.parseGQLRequest data with
    | Except.error msg => (Except.error (errorBadRequest msg), evs1)
    | Except.ok gql_request =>
      match read_multipart mp1 "map" with
      | (Except.error e, _, evs2) => (Except.error e, evs1 ++ evs2)
      | (Except.ok mdata, mp2, evs2) =>
        match ext.parseUploadMap mdata with
        | Except.error msg => (Except.error (errorBadRequest msg), evs1 ++ evs2)
        | Except.ok map =>
          match ext.intoQueryBuilder gql_request with
          | Except.error err =>
            (Except.ok (jsonResponse (Except.error err)), evs1 ++ evs2)
          | Except.ok builder =>
            match applyHook ext req builder with
            | (builder', hevs) =>
              if ext.isUpload builder' = false then
                (Except.error (errorBadRequest "It\x27s not an upload operation"),
                 evs1 ++ evs2 ++ hevs)
              else
                match read_files ext max_file_size max_file_count builder' map
                    0 mp2 with
                | (Except.error e, fevs) =>
                  (Except.error e, evs1 ++ evs2 ++ hevs ++ fevs)
                | (Except.ok (builder'', map'), fevs) =>
                  if map' ≠ [] then
                    (Except.error (errorBadRequest "missing files"),
                     evs1 ++ evs2 ++ hevs ++ fevs)
                  else
                    (Except.ok (jsonResponse (ext.execute builder'')),
                     evs1 ++ evs2 ++ hevs ++ fevs ++ [Event.executed])

/-- The JSON branch of `handle_request` (lib.rs lines 282-305): parse the
body as a `GQLRequest` (extractor failure propagates as an error), build
the query builder (an engine rejection renders as a 200 structured
error), apply the hook, record the builder's cache-control directive,
execute, drop the directive if execution failed, and render, inserting
the `Cache-Control` header when a directive remains. -/
def handle_json (ext : Ext GQLReq B E D) (req : HttpRequest)
    (body : Except HttpError GQLReq) :
    Except HttpError (HttpResponse E D) × List Event :=
  match body with
  | Except.error e => (Except.error e, [])
  | Except.ok gql_request =>
    match ext.intoQueryBuilder gql_request with
    | Except.error err => (Except.ok (jsonResponse (Except.error err)), [])
    | Except.ok builder =>
      match applyHook ext req builder with
      | (builder', hevs) =>
        let cache_control := ext.cacheControl builder'
        let gql_resp := ext.execute builder'
        let cache_control' :=
          match gql_resp with
          | Except.error _ => none
          | Except.ok _ => cache_control
        let resp := jsonResponse gql_resp
        let resp' :=
          match cache_control' with
          | some cc => { resp with cacheControl := some cc }
          | none => resp
        (Except.ok resp', hevs ++ [Event.executed])

/-- Translation of `handle_request` (lib.rs lines 179-312): dispatch on
the parsed `Content-Type` essence to the multipart branch, the JSON
branch, or an empty 415 response. -/
def handle_request (ext : Ext GQLReq B E D)
    (max_file_size max_file_count : Nat) (req : HttpRequest)
    (payload : Payload GQLReq) :
    Except HttpError (HttpResponse E D) × List Event :=
  match get_content_type ext.parseMime req.headers with
  | Except.ok ct =>
    if ct.essence = "multipart/form-data" then
      match payload.asMultipart with
      | Except.error e => (Except.error e, [])
      | Except.ok multipart =>
        handle_multipart ext max_file_size max_file_count req multipart
    else if ct.essence = "application/json" then
      handle_json ext req payload.asJson
    else
      (Except.ok
        { status := 415, cacheControl := none, body := ResponseBody.empty }, [])
  | Except.error _ =>
    (Except.ok
      { status := 415, cacheControl := none, body := ResponseBody.empty }, [])

/-- Rust `char::to_ascii_lowercase`. -/
def asciiLowerChar (c : Char) : Char :=
  if 'A' ≤ c ∧ c ≤ 'Z' then Char.ofNat (c.toNat + 32) else c

/-- Rust `str::to_ascii_lowercase`. -/
def asciiLowercase (s : String) : String := ⟨s.data.map asciiLowerChar⟩

/-- Rust `str::contains` for a string pattern: some suffix of the
haystack starts with the pattern. -/
def containsSub (pat : List Char) : List Char → Bool
  | [] => pat.isPrefixOf []
  | c :: rest => pat.isPrefixOf (c :: rest) || containsSub pat rest

/-- The upgrade test of `HandlerBuilder::build` (lib.rs lines 137-148):
the `Upgrade` header is present, valid UTF-8, and case-insensitively
contains "websocket". -/
def upgrade_is_websocket : Option HeaderValue → Bool
  | some (HeaderValue.str s) =>
    containsSub "websocket".data (asciiLowercase s).data
  | some (HeaderValue.bytes _) => false
  | none => false

/-- Translation of the closure returned by `HandlerBuilder::build`
(lib.rs lines 129-175): on GET, try the websocket upgrade (when
subscriptions are enabled) and then the playground page (when enabled);
on POST, call `handle_request`; otherwise 405. A GET that neither
upgrades nor serves the page falls through to the method check and gets
405. -/
def dispatch (ext : Ext GQLReq B E D) (cfg : HandlerConfig)
    (req : HttpRequest) (payload : Payload GQLReq) :
    Except HttpError (HttpResponse E D) × List Event :=
  if req.method = HttpMethod.GET then
    if cfg.enableSubscription && upgrade_is_websocket req.headers.upgrade then
      (ext.wsStart, [])
    else
      match cfg.enableUi with
      | some (endpoint, subscription_endpoint) =>
        (Except.ok
          { status := 200, cacheControl := none,
            body := ResponseBody.html
              (ext.playgroundSource endpoint subscription_endpoint) }, [])
      | none =>
        (Except.ok
          { status := 405, cacheControl := none, body := ResponseBody.empty },
         [])
  else if req.method = HttpMethod.POST then
    handle_request ext cfg.maxFileSize cfg.maxFileCount req payload
  else
    (Except.ok
      { status := 405, cacheControl := none, body := ResponseBody.empty }, [])

/-- Sum of the lengths of a list of chunks. -/
def sumLens (p : List (List Nat)) : Nat := (p.map List.length).sum

/-- Expected `chunkBuffered` trace of buffering the given chunks starting
from a buffer of `acc` bytes. -/
def chunkEvents : Nat → List (List Nat) → List Event
  | _, [] => []
  | acc, q :: qs =>
    Event.chunkBuffered q.length (acc + q.length) ::
      chunkEvents (acc + q.length) qs

/-- Whether an event records the completion of a file field. -/
def isFileDone : Event → Bool
  | Event.fileFieldDone _ => true
  | _ => false

/-- Whether an event records an upload attachment. -/
def isUploadSetEvent : Event → Bool
  | Event.uploadSet _ => true
  | _ => false

/-- Number of completed file fields recorded in a trace. -/
def countFileDone (tr : List Event) : Nat := tr.countP isFileDone

/-- Concrete media-type parser for witnesses: knows the two supported
essences, fails on "text/plain", and passes anything else through as its
own essence. -/
def parseMimeW (s : String) : Option Mime :=
  if s = "application/json" then some ⟨"application/json"⟩
  else if s = "multipart/form-data" then some ⟨"multipart/form-data"⟩
  else if s = "text/plain" then none
  else some ⟨s⟩

/-- Concrete external collaborators for witnesses: the builder is a
single boolean recording whether the operation is upload-capable. -/
def extBase : Ext Unit Bool Unit Unit where
  parseMime := parseMimeW
  parseGQLRequest := fun _ => Except.ok ()
  parseUploadMap := fun _ => Except.ok []
  intoQueryBuilder := fun _ => Except.ok true
  isUpload := fun b => b
  cacheControl := fun _ => none
  setUpload := fun b _ _ _ _ => b
  execute := fun _ => Except.ok ()
  onRequest := none
  playgroundSource := fun _ _ => "PLAYGROUND"
  wsStart := Except.error ⟨500, "ws"⟩

/-- A POST request with a multipart content type. -/
def reqPost : HttpRequest :=
  ⟨HttpMethod.POST, ⟨some (HeaderValue.str "multipart/form-data"), none⟩⟩

/-- A well-formed `operations` field. -/
def opsField : Field :=
  ⟨some ⟨some "operations", none⟩, "application/json", [Except.ok [123]]⟩

/-- A well-formed `map` field. -/
def mapField : Field :=
  ⟨some ⟨some "map", none⟩, "application/json", [Except.ok [125]]⟩

/-- Default configuration for witnesses. -/
def cfgW : HandlerConfig := ⟨2097152, 9, false, none⟩

/-- A payload for witnesses. -/
def payloadU : Payload Unit := ⟨Except.ok [], Except.ok ()⟩

/-- External collaborators whose constructed builder is not
upload-capable but whose hook replaces it by an upload-capable one. -/
def extC3 : Ext Unit Bool Unit Unit :=
  { extBase with
    intoQueryBuilder := fun _ => Except.ok false
    onRequest := some (fun _ _ => true) }

/-- A multipart stream with only the `operations` and `map` parts. -/
def mpNoFiles : List (Except HttpError Field) :=
  [Except.ok opsField, Except.ok mapField]

/-- External collaborators whose upload map declares one file `f`. -/
def extC2 : Ext Unit Bool Unit Unit :=
  { extBase with
    parseUploadMap := fun _ => Except.ok [("f", ["variables.file"])] }

/-- A file field named `f` whose single chunk holds two bytes. -/
def fileBig : Field :=
  ⟨some ⟨some "f", some "a.txt"⟩, "text/plain", [Except.ok [7, 7]]⟩

/-- A multipart stream whose file part delivers two bytes at once. -/
def mpC2 : List (Except HttpError Field) :=
  [Except.ok opsField, Except.ok mapField, Except.ok fileBig]

/-- A small file field named `f`. -/
def fileSmall : Field :=
  ⟨some ⟨some "f", some "a.txt"⟩, "text/plain", [Except.ok [7]]⟩

/-- A multipart stream with one well-formed small file part. -/
def mpOneFile : List (Except HttpError Field) :=
  [Except.ok opsField, Except.ok mapField, Except.ok fileSmall]

/-- External collaborators whose engine rejects the operation descriptor
at builder construction. -/
def extBuildErr : Ext Unit Bool Unit Unit :=
  { extBase with intoQueryBuilder := fun _ => Except.error () }

/-- External collaborators whose engine reports an execution error. -/
def extExecErr : Ext Unit Bool Unit Unit :=
  { extBase with execute := fun _ => Except.error () }

/-- External collaborators declaring a cache-control directive. -/
def extCC : Ext Unit Bool Unit Unit :=
  { extBase with cacheControl := fun _ => some "max-age=60" }

/-- External collaborators with one declared upload whose engine reports
an execution error. -/
def extMPExecErr : Ext Unit Bool Unit Unit :=
  { extC2 with execute := fun _ => Except.error () }

/-- External collaborators whose constructed builder is not
upload-capable and with no hook configured. -/
def extNoUpload : Ext Unit Bool Unit Unit :=
  { extBase with intoQueryBuilder := fun _ => Except.ok false }

theorem read_multipart_trace_events (mp : List (Except HttpError Field))
    (name : String) :
    ∀ e ∈ (read_multipart mp name).2.2, e = Event.fieldConsumed := by
  intro e he
  unfold read_multipart at he
  repeat' split at he
  all_goals simp_all

theorem read_file_data_events (M : Nat) :
    ∀ (cks : List (Except String (List Nat))) (data : List Nat) (e : Event),
      e ∈ (read_file_data M data cks).2 → ∃ cl t, e = Event.chunkBuffered cl t := by
  intro cks
  induction cks with
  | nil => intro data e he; simp [read_file_data] at he
  | cons hd tl ih =>
    intro data e he
    cases hd with
    | error msg => simp [read_file_data] at he
    | ok part =>
      rw [read_file_data] at he
      split at he
      · exact ⟨part.length, (data ++ part).length, by simpa using he⟩
      · split at he
        rename_i r evs hrd
        simp only [List.mem_cons] at he
        rcases he with he | he
        · exact ⟨part.length, (data ++ part).length, he⟩
        · exact ih (data ++ part) e (by rw [hrd]; exact he)

theorem process_file_field_events {GQLReq B E D : Type}
    (ext : Ext GQLReq B E D) (M : Nat) (b : B)
    (m : List (String × List String)) (f : Field) :
    ∀ e ∈ (process_file_field ext M b m f).2,
      (∃ cl t, e = Event.chunkBuffered cl t) ∨ (∃ p, e = Event.uploadSet p) := by
  intro e he
  unfold process_file_field at he
  cases hd : f.disposition with
  | none => rw [hd] at he; simp at he
  | some cd =>
    rw [hd] at he
    cases hn : cd.name with
    | none => simp only [hn] at he; simp at he
    | some nm =>
      cases hfn : cd.filename with
      | none => simp only [hn, hfn] at he; simp at he
      | some fn =>
        simp only [hn, hfn] at he
        rcases hrm : hmRemove nm m with ⟨ov, m'⟩
        rw [hrm] at he
        cases ov with
        | none => simp at he
        | some paths =>
          rcases hrd : read_file_data M [] f.chunks with ⟨rd, evs⟩
          rw [hrd] at he
          cases rd with
          | error err =>
            exact Or.inl
              (read_file_data_events M f.chunks [] e (by rw [hrd]; exact he))
          | ok data =>
            simp only [List.mem_append] at he
            rcases he with he | he
            · exact Or.inl
                (read_file_data_events M f.chunks [] e (by rw [hrd]; exact he))
            · rcases List.mem_map.mp he with ⟨p, _, hp⟩
              exact Or.inr ⟨p, hp.symm⟩

theorem read_files_events {GQLReq B E D : Type}
    (ext : Ext GQLReq B E D) (M N : Nat) :
    ∀ (fields : List (Except HttpError Field)) (b : B)
      (m : List (String × List String)) (c : Nat),
      ∀ e ∈ (read_files ext M N b m c fields).2,
        e = Event.fieldConsumed ∨ (∃ cl t, e = Event.chunkBuffered cl t) ∨
        (∃ p, e = Event.uploadSet p) ∨ (∃ n, e = Event.fileFieldDone n) := by
  intro fields
  induction fields with
  | nil => intro b m c e he; simp [read_files] at he
  | cons hd tl ih =>
    intro b m c e he
    cases hd with
    | error err =>
      rw [read_files] at he
      simp only [List.mem_singleton] at he
      exact Or.inl he
    | ok f =>
      rw [read_files] at he
      split at he
      · rename_i err evs hpf
        simp only [List.mem_cons] at he
        rcases he with he | he
        · exact Or.inl he
        · rcases process_file_field_events ext M b m f e
              (by rw [hpf]; exact he) with h | h
          · exact Or.inr (Or.inl h)
          · exact Or.inr (Or.inr (Or.inl h))
      · rename_i b' m' nm evs hpf
        split at he
        · simp only [List.mem_cons, List.mem_append, List.mem_singleton] at he
          rcases he with he | he
          · exact Or.inl he
          · rcases he with he | he
            · rcases process_file_field_events ext M b m f e
                  (by rw [hpf]; exact he) with h | h
              · exact Or.inr (Or.inl h)
              · exact Or.inr (Or.inr (Or.inl h))
            · exact Or.inr (Or.inr (Or.inr ⟨nm, Or.resolve_right he (by simp)⟩))
        · split at he
          rename_i r' evs' hrf
          simp only [List.mem_append, List.mem_cons, List.mem_singleton] at he
          rcases he with (he | he | he) | he
          · exact Or.inl he
          · rcases process_file_field_events ext M b m f e
                (by rw [hpf]; exact he) with h | h
            · exact Or.inr (Or.inl h)
            · exact Or.inr (Or.inr (Or.inl h))
          · exact Or.inr (Or.inr (Or.inr ⟨nm, Or.resolve_right he (by simp)⟩))
          · exact ih b' m' (c + 1) e (by rw [hrf]; exact he)

/-- C8: For every POST request whose Content-Type header is missing, fails
to parse as a media type, or whose essence is neither application/json nor
multipart/form-data, the handler returns a 415 Unsupported Media Type
response with an empty body; the result is the same for every payload, so
no body bytes are read. -/
theorem C8_unsupported_media_type_415 :
    (∀ (GQLReq B E D : Type) (ext : Ext GQLReq B E D) (cfg : HandlerConfig)
       (req : HttpRequest) (payload : Payload GQLReq),
       req.method = HttpMethod.POST →
       req.headers.contentType = none →
       dispatch ext cfg req payload =
         (Except.ok { status := 415, cacheControl := none,
                      body := ResponseBody.empty }, [])) ∧
    (∀ (GQLReq B E D : Type) (ext : Ext GQLReq B E D) (cfg : HandlerConfig)
       (req : HttpRequest) (payload : Payload GQLReq) (bs : List Nat),
       req.method = HttpMethod.POST →
       req.headers.contentType = some (HeaderValue.bytes bs) →
       dispatch ext cfg req payload =
         (Except.ok { status := 415, cacheControl := none,
                      body := ResponseBody.empty }, [])) ∧
    (∀ (GQLReq B E D : Type) (ext : Ext GQLReq B E D) (cfg : HandlerConfig)
       (req : HttpRequest) (payload : Payload GQLReq) (s : String),
       req.method = HttpMethod.POST →
       req.headers.contentType = some (HeaderValue.str s) →
       ext.parseMime s = none →
       dispatch ext cfg req payload =
         (Except.ok { status := 415, cacheControl := none,
                      body := ResponseBody.empty }, [])) ∧
    (∀ (GQLReq B E D : Type) (ext : Ext GQLReq B E D) (cfg : HandlerConfig)
       (req : HttpRequest) (payload : Payload GQLReq) (s : String) (mt : Mime),
       req.method = HttpMethod.POST →
       req.headers.contentType = some (HeaderValue.str s) →
       ext.parseMime s = some mt →
       mt.essence ≠ "application/json" →
       mt.essence ≠ "multipart/form-data" →
       dispatch ext cfg req payload =
         (Except.ok { status := 415, cacheControl := none,
                      body := ResponseBody.empty }, [])) := by
  refine ⟨?_, ?_, ?_, ?_⟩
  · intro GQLReq B E D ext cfg req payload hm hct
    simp [dispatch, hm, handle_request, get_content_type, hct]
  · intro GQLReq B E D ext cfg req payload bs hm hct
    simp [dispatch, hm, handle_request, get_content_type, hct]
  · intro GQLReq B E D ext cfg req payload s hm hct hpm
    simp [dispatch, hm, handle_request, get_content_type, hct, hpm]
  · intro GQLReq B E D ext cfg req payload s mt hm hct hpm h1 h2
    simp [dispatch, hm, handle_request, get_content_type, hct, hpm, h1, h2]

/-- Witness for C8 at concrete requests: a POST with no Content-Type, one
with non-UTF-8 bytes, one with an unparseable value, and one with essence
text/xml all yield the empty 415 response. -/
theorem C8_unsupported_media_type_415_witness :
    dispatch extBase cfgW ⟨HttpMethod.POST, ⟨none, none⟩⟩ payloadU =
      (Except.ok { status := 415, cacheControl := none,
                   body := ResponseBody.empty }, []) ∧
    dispatch extBase cfgW
        ⟨HttpMethod.POST, ⟨some (HeaderValue.bytes [255]), none⟩⟩ payloadU =
      (Except.ok { status := 415, cacheControl := none,
                   body := ResponseBody.empty }, []) ∧
    dispatch extBase cfgW
        ⟨HttpMethod.POST, ⟨some (HeaderValue.str "text/plain"), none⟩⟩ payloadU =
      (Except.ok { status := 415, cacheControl := none,
                   body := ResponseBody.empty }, []) ∧
    dispatch extBase cfgW
        ⟨HttpMethod.POST, ⟨some (HeaderValue.str "text/xml"), none⟩⟩ payloadU =
      (Except.ok { status := 415, cacheControl := none,
                   body := ResponseBody.empty }, []) :=
  ⟨C8_unsupported_media_type_415.1 Unit Bool Unit Unit extBase cfgW
      ⟨HttpMethod.POST, ⟨none, none⟩⟩ payloadU rfl rfl,
   C8_unsupported_media_type_415.2.1 Unit Bool Unit Unit extBase cfgW
      ⟨HttpMethod.POST, ⟨some (HeaderValue.bytes [255]), none⟩⟩ payloadU [255]
      rfl rfl,
   C8_unsupported_media_type_415.2.2.1 Unit Bool Unit Unit extBase cfgW
      ⟨HttpMethod.POST, ⟨some (HeaderValue.str "text/plain"), none⟩⟩ payloadU
      "text/plain" rfl rfl (by decide),
   C8_unsupported_media_type_415.2.2.2 Unit Bool Unit Unit extBase cfgW
      ⟨HttpMethod.POST, ⟨some (HeaderValue.str "text/xml"), none⟩⟩ payloadU
      "text/xml" ⟨"text/xml"⟩ rfl rfl (by decide) (by decide) (by decide)⟩

/-- C9: For every GET request with subscriptions enabled whose Upgrade
header is absent, not valid UTF-8, or does not case-insensitively contain
"websocket", the upgrade path is skipped: the response is the same as for
the request without an Upgrade header, namely the documentation page when
it is enabled and an empty 405 otherwise; no error response arises from
the malformed Upgrade value itself. -/
theorem C9_bad_upgrade_header_is_ordinary_get
    {GQLReq B E D : Type} (ext : Ext GQLReq B E D) (cfg : HandlerConfig)
    (req : HttpRequest) (payload : Payload GQLReq)
    (hm : req.method = HttpMethod.GET)
    (hs : cfg.enableSubscription = true)
    (hu : req.headers.upgrade = none ∨
      (∃ bs, req.headers.upgrade = some (HeaderValue.bytes bs)) ∨
      (∃ s, req.headers.upgrade = some (HeaderValue.str s) ∧
        containsSub "websocket".data (asciiLowercase s).data = false)) :
    dispatch ext cfg req payload =
      dispatch ext cfg
        { req with headers := { req.headers with upgrade := none } } payload ∧
    (∀ ep se, cfg.enableUi = some (ep, se) →
      dispatch ext cfg req payload =
        (Except.ok { status := 200, cacheControl := none,
                     body := ResponseBody.html (ext.playgroundSource ep se) },
         [])) ∧
    (cfg.enableUi = none →
      dispatch ext cfg req payload =
        (Except.ok { status := 405, cacheControl := none,
                     body := ResponseBody.empty }, [])) := by
  have hwu : upgrade_is_websocket req.headers.upgrade = false := by
    rcases hu with hu | ⟨bs, hu⟩ | ⟨s, hu, hc⟩
    · simp [upgrade_is_websocket, hu]
    · simp [upgrade_is_websocket, hu]
    · simp [upgrade_is_websocket, hu, hc]
  have hwn : upgrade_is_websocket none = false := rfl
  refine ⟨?_, ?_, ?_⟩
  · simp [dispatch, hm, hwu, hwn]
  · intro ep se hui
    simp [dispatch, hm, hwu, hui]
  · intro hui
    simp [dispatch, hm, hwu, hui]

/-- Witness for C9: a GET request with an Upgrade header that does not
mention websocket, under a subscription-enabled configuration, yields the
empty 405 response (no documentation page configured). -/
theorem C9_bad_upgrade_header_is_ordinary_get_witness :
    dispatch extBase ⟨2097152, 9, true, none⟩
        ⟨HttpMethod.GET, ⟨none, some (HeaderValue.str "h2c")⟩⟩ payloadU =
      dispatch extBase ⟨2097152, 9, true, none⟩
        ⟨HttpMethod.GET, ⟨none, none⟩⟩ payloadU ∧
    dispatch extBase ⟨2097152, 9, true, none⟩
        ⟨HttpMethod.GET, ⟨none, some (HeaderValue.str "h2c")⟩⟩ payloadU =
      (Except.ok { status := 405, cacheControl := none,
                   body := ResponseBody.empty }, []) :=
  have h := C9_bad_upgrade_header_is_ordinary_get extBase ⟨2097152, 9, true, none⟩
    ⟨HttpMethod.GET, ⟨none, some (HeaderValue.str "h2c")⟩⟩ payloadU rfl rfl
    (Or.inr (Or.inr ⟨"h2c", rfl, by decide⟩))
  ⟨h.1, h.2.2 rfl⟩

/-- C10: When reading the second multipart field (expected name "map"), a
field carrying a content disposition with no name fails the request with
a 400 whose message is the fixed string missing "operations", naming the
operations field although the map field was expected. -/
theorem C10_nameless_second_field_reports_missing_operations :
    (∀ (f : Field) (rest : List (Except HttpError Field)) (fn : Option String),
       f.disposition = some ⟨none, fn⟩ →
       read_multipart (Except.ok f :: rest) "map" =
         (Except.error (errorBadRequest "missing \"operations\""), rest,
          [Event.fieldConsumed])) ∧
    (∀ (GQLReq B E D : Type) (ext : Ext GQLReq B E D) (M N : Nat)
       (req : HttpRequest) (mp mp1 rest : List (Except HttpError Field))
       (d : List Nat) (ev1 : List Event) (gr : GQLReq) (f : Field)
       (fn : Option String),
       read_multipart mp "operations" = (Except.ok d, mp1, ev1) →
       ext.parseGQLRequest d = Except.ok gr →
       mp1 = Except.ok f :: rest →
       f.disposition = some ⟨none, fn⟩ →
       handle_multipart ext M N req mp =
         (Except.error (errorBadRequest "missing \"operations\""),
          ev1 ++ [Event.fieldConsumed])) := by
  constructor
  · intro f rest fn hd
    simp [read_multipart, hd]
  · intro GQLReq B E D ext M N req mp mp1 rest d ev1 gr f fn h1 hp hmp1 hd
    unfold handle_multipart
    rw [h1]
    simp only [hp, hmp1]
    simp [read_multipart, hd]

/-- Witness for C10: a second field whose disposition has a filename but
no name makes the whole multipart request fail with 400 missing
"operations". -/
theorem C10_nameless_second_field_witness :
    handle_multipart extBase 2097152 9 reqPost
        [Except.ok opsField,
         Except.ok ⟨some ⟨none, some "x"⟩, "text/plain", []⟩] =
      (Except.error (errorBadRequest "missing \"operations\""),
       [Event.fieldConsumed, Event.fieldConsumed]) :=
  C10_nameless_second_field_reports_missing_operations.2 Unit Bool Unit Unit
    extBase 2097152 9 reqPost
    [Except.ok opsField, Except.ok ⟨some ⟨none, some "x"⟩, "text/plain", []⟩]
    [Except.ok ⟨some ⟨none, some "x"⟩, "text/plain", []⟩] []
    [123] [Event.fieldConsumed] () ⟨some ⟨none, some "x"⟩, "text/plain", []⟩
    (some "x") (by decide) rfl rfl rfl

/-- C4: The first multipart field must be named "operations" and the
second "map": a first field with any other disposition name (so in
particular the swapped order, where "map" comes first) is rejected with a
400 naming the expected field after consuming only that field; a second
field with any other name is rejected with a 400 likewise; an absent
second field (map omitted) is rejected with a 400; in every case no file
part is read: the trace shows at most the two leading fields consumed. -/
theorem C4_fixed_field_order_enforced :
    (∀ (GQLReq B E D : Type) (ext : Ext GQLReq B E D) (M N : Nat)
       (req : HttpRequest) (f : Field) (rest : List (Except HttpError Field))
       (cd : ContentDisposition) (n : String),
       f.disposition = some cd → cd.name = some n → n ≠ "operations" →
       handle_multipart ext M N req (Except.ok f :: rest) =
         (Except.error (errorBadRequest "expect \"operations\""),
          [Event.fieldConsumed])) ∧
    (∀ (GQLReq B E D : Type) (ext : Ext GQLReq B E D) (M N : Nat)
       (req : HttpRequest) (mp mp1 rest : List (Except HttpError Field))
       (d : List Nat) (ev1 : List Event) (gr : GQLReq) (f : Field)
       (cd : ContentDisposition) (n : String),
       read_multipart mp "operations" = (Except.ok d, mp1, ev1) →
       ext.parseGQLRequest d = Except.ok gr →
       mp1 = Except.ok f :: rest →
       f.disposition = some cd → cd.name = some n → n ≠ "map" →
       handle_multipart ext M N req mp =
         (Except.error (errorBadRequest "expect \"map\""),
          ev1 ++ [Event.fieldConsumed])) ∧
    (∀ (GQLReq B E D : Type) (ext : Ext GQLReq B E D) (M N : Nat)
       (req : HttpRequest) (mp : List (Except HttpError Field))
       (d : List Nat) (ev1 : List Event) (gr : GQLReq),
       read_multipart mp "operations" = (Except.ok d, [], ev1) →
       ext.parseGQLRequest d = Except.ok gr →
       handle_multipart ext M N req mp =
         (Except.error (errorBadRequest "bad request"), ev1)) := by
  refine ⟨?_, ?_, ?_⟩
  · intro GQLReq B E D ext M N req f rest cd n hd hn hne
    unfold handle_multipart
    simp [read_multipart, hd, hn, hne]
  · intro GQLReq B E D ext M N req mp mp1 rest d ev1 gr f cd n h1 hp hmp1 hd
      hn hne
    unfold handle_multipart
    rw [h1]
    simp only [hp, hmp1]
    simp [read_multipart, hd, hn, hne]
  · intro GQLReq B E D ext M N req mp d ev1 gr h1 hp
    unfold handle_multipart
    rw [h1]
    simp only [hp]
    simp [read_multipart]

/-- Witness for C4: swapped order (map first), a wrongly named second
field, and an omitted map part are each rejected with the corresponding
400, having consumed at most two fields. -/
theorem C4_fixed_field_order_enforced_witness :
    handle_multipart extBase 2097152 9 reqPost
        [Except.ok mapField, Except.ok opsField] =
      (Except.error (errorBadRequest "expect \"operations\""),
       [Event.fieldConsumed]) ∧
    handle_multipart extBase 2097152 9 reqPost
        [Except.ok opsField, Except.ok fileSmall] =
      (Except.error (errorBadRequest "expect \"map\""),
       [Event.fieldConsumed, Event.fieldConsumed]) ∧
    handle_multipart extBase 2097152 9 reqPost [Except.ok opsField] =
      (Except.error (errorBadRequest "bad request"), [Event.fieldConsumed]) :=
  ⟨C4_fixed_field_order_enforced.1 Unit Bool Unit Unit extBase 2097152 9
      reqPost mapField [Except.ok opsField] ⟨some "map", none⟩ "map"
      rfl rfl (by decide),
   C4_fixed_field_order_enforced.2.1 Unit Bool Unit Unit extBase 2097152 9
      reqPost [Except.ok opsField, Except.ok fileSmall] [Except.ok fileSmall]
      [] [123] [Event.fieldConsumed] () fileSmall ⟨some "f", some "a.txt"⟩ "f"
      (by decide) rfl rfl rfl rfl (by decide),
   C4_fixed_field_order_enforced.2.2 Unit Bool Unit Unit extBase 2097152 9
      reqPost [Except.ok opsField] [123] [Event.fieldConsumed] ()
      (by decide) rfl⟩

/-- C5: Every upload-map entry must be resolved by exactly one file field
before execution: a file field whose disposition name is not a key of the
remaining upload map fails the request with a 400 "bad request", and an
upload map that is still non-empty when the field stream ends fails the
request with a 400 "missing files"; neither case is silently dropped. -/
theorem C5_upload_map_fully_resolved :
    (∀ (GQLReq B E D : Type) (ext : Ext GQLReq B E D) (M N : Nat) (b : B)
       (m : List (String × List String)) (c : Nat) (f : Field)
       (rest : List (Except HttpError Field)) (cd : ContentDisposition)
       (n fn : String) (m2 : List (String × List String)),
       f.disposition = some cd → cd.name = some n → cd.filename = some fn →
       hmRemove n m = (none, m2) →
       read_files ext M N b m c (Except.ok f :: rest) =
         (Except.error (errorBadRequest "bad request"),
          [Event.fieldConsumed])) ∧
    (∀ (GQLReq B E D : Type) (ext : Ext GQLReq B E D) (M N : Nat)
       (req : HttpRequest) (mp mp1 mp2 : List (Except HttpError Field))
       (d md : List Nat) (ev1 ev2 : List Event) (gr : GQLReq)
       (m m' : List (String × List String)) (b b' b'' : B)
       (hevs fevs : List Event),
       read_multipart mp "operations" = (Except.ok d, mp1, ev1) →
       ext.parseGQLRequest d = Except.ok gr →
       read_multipart mp1 "map" = (Except.ok md, mp2, ev2) →
       ext.parseUploadMap md = Except.ok m →
       ext.intoQueryBuilder gr = Except.ok b →
       applyHook ext req b = (b', hevs) →
       ext.isUpload b' = true →
       read_files ext M N b' m 0 mp2 = (Except.ok (b'', m'), fevs) →
       m' ≠ [] →
       handle_multipart ext M N req mp =
         (Except.error (errorBadRequest "missing files"),
          ev1 ++ ev2 ++ hevs ++ fevs)) := by
  constructor
  · intro GQLReq B E D ext M N b m c f rest cd n fn m2 hd hn hfn hrm
    rw [read_files]
    simp [process_file_field, hd, hn, hfn, hrm]
  · intro GQLReq B E D ext M N req mp mp1 mp2 d md ev1 ev2 gr m m' b b' b''
      hevs fevs h1 hp h2 hup hib hah hiu hrf hne
    unfold handle_multipart
    rw [h1]
    simp only [hp]
    rw [h2]
    simp only [hup, hib]
    rw [hah]
    simp [hiu, hrf, hne]

/-- Witness for C5: a file field named "f" against an empty upload map is
rejected with 400 "bad request", and a declared upload "f" never supplied
is rejected with 400 "missing files". -/
theorem C5_upload_map_fully_resolved_witness :
    read_files extBase 5 9 true [] 0 [Except.ok fileSmall] =
      (Except.error (errorBadRequest "bad request"), [Event.fieldConsumed]) ∧
    handle_multipart extC2 2097152 9 reqPost mpNoFiles =
      (Except.error (errorBadRequest "missing files"),
       [Event.fieldConsumed, Event.fieldConsumed]) :=
  ⟨C5_upload_map_fully_resolved.1 Unit Bool Unit Unit extBase 5 9 true [] 0
      fileSmall [] ⟨some "f", some "a.txt"⟩ "f" "a.txt" [] rfl rfl rfl rfl,
   C5_upload_map_fully_resolved.2 Unit Bool Unit Unit extC2 2097152 9 reqPost
      mpNoFiles [Except.ok mapField] [] [123] [125] [Event.fieldConsumed]
      [Event.fieldConsumed] () [("f", ["variables.file"])]
      [("f", ["variables.file"])] true true true [] []
      (by decide) rfl (by decide) rfl rfl rfl rfl rfl (by decide)⟩

/-- C7: On the JSON path, a successful execution carries the builder's
cache-control directive (when one exists) as the response's Cache-Control
header, while an engine-level execution error omits it; on the multipart
path the Cache-Control header is never set, whatever the outcome. -/
theorem C7_cache_control_propagation :
    (∀ (GQLReq B E D : Type) (ext : Ext GQLReq B E D) (req : HttpRequest)
       (gr : GQLReq) (b b' : B) (hevs : List Event) (d : D),
       ext.intoQueryBuilder gr = Except.ok b →
       applyHook ext req b = (b', hevs) →
       ext.execute b' = Except.ok d →
       handle_json ext req (Except.ok gr) =
         (Except.ok { status := 200, cacheControl := ext.cacheControl b',
                      body := ResponseBody.json (Except.ok d) },
          hevs ++ [Event.executed])) ∧
    (∀ (GQLReq B E D : Type) (ext : Ext GQLReq B E D) (req : HttpRequest)
       (gr : GQLReq) (b b' : B) (hevs : List Event) (err : E),
       ext.intoQueryBuilder gr = Except.ok b →
       applyHook ext req b = (b', hevs) →
       ext.execute b' = Except.error err →
       handle_json ext req (Except.ok gr) =
         (Except.ok (jsonResponse (Except.error err)),
          hevs ++ [Event.executed])) ∧
    (∀ (GQLReq B E D : Type) (ext : Ext GQLReq B E D) (M N : Nat)
       (req : HttpRequest) (mp : List (Except HttpError Field))
       (resp : HttpResponse E D),
       (handle_multipart ext M N req mp).1 = Except.ok resp →
       resp.cacheControl = none) := by
  refine ⟨?_, ?_, ?_⟩
  · intro GQLReq B E D ext req gr b b' hevs d hib hah hex
    simp only [handle_json, hib, hah, hex]
    cases hcc : ext.cacheControl b' <;> simp [jsonResponse, hcc]
  · intro GQLReq B E D ext req gr b b' hevs err hib hah hex
    simp only [handle_json, hib, hah, hex]
  · intro GQLReq B E D ext M N req mp resp h
    rcases hfull : handle_multipart ext M N req mp with ⟨r, tr⟩
    rw [hfull] at h
    simp only at h
    unfold handle_multipart at hfull
    repeat' split at hfull
    all_goals simp_all [jsonResponse]
    all_goals rw [← hfull.1]

/-- Witness for C7: a cache-control directive is propagated on JSON
success, dropped on JSON execution error, and the multipart path's 200
response carries no Cache-Control header. -/
theorem C7_cache_control_propagation_witness :
    handle_json extCC reqPost (Except.ok ()) =
      (Except.ok { status := 200, cacheControl := some "max-age=60",
                   body := ResponseBody.json (Except.ok ()) },
       [Event.executed]) ∧
    handle_json extExecErr reqPost (Except.ok ()) =
      (Except.ok (jsonResponse (Except.error ())), [Event.executed]) ∧
    (jsonResponse (Except.ok ()) : HttpResponse Unit Unit).cacheControl =
      none :=
  ⟨C7_cache_control_propagation.1 Unit Bool Unit Unit extCC reqPost () true
      true [] () rfl rfl rfl,
   C7_cache_control_propagation.2.1 Unit Bool Unit Unit extExecErr reqPost ()
      true true [] () rfl rfl rfl,
   C7_cache_control_propagation.2.2 Unit Bool Unit Unit extC2 2097152 9
      reqPost mpOneFile (jsonResponse (Except.ok ())) (by decide)⟩

/-- C1: Engine-level failures are never HTTP errors: when the engine
rejects the operation descriptor at builder construction, or execution
returns an engine-level error, the handler returns an Ok 200 response
whose JSON body encodes the structured error, on both the JSON and the
multipart path. -/
theorem C1_engine_errors_render_as_200 :
    (∀ (GQLReq B E D : Type) (ext : Ext GQLReq B E D) (req : HttpRequest)
       (gr : GQLReq) (err : E),
       ext.intoQueryBuilder gr = Except.error err →
       handle_json ext req (Except.ok gr) =
         (Except.ok (jsonResponse (Except.error err)), [])) ∧
    (∀ (GQLReq B E D : Type) (ext : Ext GQLReq B E D) (req : HttpRequest)
       (gr : GQLReq) (b b' : B) (hevs : List Event) (err : E),
       ext.intoQueryBuilder gr = Except.ok b →
       applyHook ext req b = (b', hevs) →
       ext.execute b' = Except.error err →
       handle_json ext req (Except.ok gr) =
         (Except.ok (jsonResponse (Except.error err)),
          hevs ++ [Event.executed])) ∧
    (∀ (GQLReq B E D : Type) (ext : Ext GQLReq B E D) (M N : Nat)
       (req : HttpRequest) (mp mp1 mp2 : List (Except HttpError Field))
       (d md : List Nat) (ev1 ev2 : List Event) (gr : GQLReq)
       (m : List (String × List String)) (err : E),
       read_multipart mp "operations" = (Except.ok d, mp1, ev1) →
       ext.parseGQLRequest d = Except.ok gr →
       read_multipart mp1 "map" = (Except.ok md, mp2, ev2) →
       ext.parseUploadMap md = Except.ok m →
       ext.intoQueryBuilder gr = Except.error err →
       handle_multipart ext M N req mp =
         (Except.ok (jsonResponse (Except.error err)), ev1 ++ ev2)) ∧
    (∀ (GQLReq B E D : Type) (ext : Ext GQLReq B E D) (M N : Nat)
       (req : HttpRequest) (mp mp1 mp2 : List (Except HttpError Field))
       (d md : List Nat) (ev1 ev2 : List Event) (gr : GQLReq)
       (m : List (String × List String)) (b b' b'' : B)
       (hevs fevs : List Event) (err : E),
       read_multipart mp "operations" = (Except.ok d, mp1, ev1) →
       ext.parseGQLRequest d = Except.ok gr →
       read_multipart mp1 "map" = (Except.ok md, mp2, ev2) →
       ext.parseUploadMap md = Except.ok m →
       ext.intoQueryBuilder gr = Except.ok b →
       applyHook ext req b = (b', hevs) →
       ext.isUpload b' = true →
       read_files ext M N b' m 0 mp2 = (Except.ok (b'', []), fevs) →
       ext.execute b'' = Except.error err →
       handle_multipart ext M N req mp =
         (Except.ok (jsonResponse (Except.error err)),
          ev1 ++ ev2 ++ hevs ++ fevs ++ [Event.executed])) := by
  refine ⟨?_, ?_, ?_, ?_⟩
  · intro GQLReq B E D ext req gr err hib
    simp only [handle_json, hib]
  · intro GQLReq B E D ext req gr b b' hevs err hib hah hex
    simp only [handle_json, hib, hah, hex]
  · intro GQLReq B E D ext M N req mp mp1 mp2 d md ev1 ev2 gr m err h1 hp h2
      hup hib
    unfold handle_multipart
    rw [h1]
    simp only [hp]
    rw [h2]
    simp only [hup, hib]
  · intro GQLReq B E D ext M N req mp mp1 mp2 d md ev1 ev2 gr m b b' b'' hevs
      fevs err h1 hp h2 hup hib hah hiu hrf hex
    unfold handle_multipart
    rw [h1]
    simp only [hp]
    rw [h2]
    simp only [hup, hib]
    rw [hah]
    simp [hiu, hrf, hex]

/-- Witness for C1: concrete runs exercising each of the four engine
failure positions all render as Ok 200 responses with the structured
error in the body. -/
theorem C1_engine_errors_render_as_200_witness :
    handle_json extBuildErr reqPost (Except.ok ()) =
      (Except.ok (jsonResponse (Except.error ())), []) ∧
    handle_json extExecErr reqPost (Except.ok ()) =
      (Except.ok (jsonResponse (Except.error ())), [Event.executed]) ∧
    handle_multipart extBuildErr 2097152 9 reqPost mpNoFiles =
      (Except.ok (jsonResponse (Except.error ())),
       [Event.fieldConsumed, Event.fieldConsumed]) ∧
    handle_multipart extMPExecErr 2097152 9 reqPost mpOneFile =
      (Except.ok (jsonResponse (Except.error ())),
       [Event.fieldConsumed, Event.fieldConsumed, Event.fieldConsumed,
        Event.chunkBuffered 1 1, Event.uploadSet "variables.file",
        Event.fileFieldDone "f", Event.executed]) :=
  ⟨C1_engine_errors_render_as_200.1 Unit Bool Unit Unit extBuildErr reqPost ()
      () rfl,
   C1_engine_errors_render_as_200.2.1 Unit Bool Unit Unit extExecErr reqPost
      () true true [] () rfl rfl rfl,
   C1_engine_errors_render_as_200.2.2.1 Unit Bool Unit Unit extBuildErr
      2097152 9 reqPost mpNoFiles [Except.ok mapField] [] [123] [125]
      [Event.fieldConsumed] [Event.fieldConsumed] () [] ()
      (by decide) rfl (by decide) rfl rfl,
   C1_engine_errors_render_as_200.2.2.2 Unit Bool Unit Unit extMPExecErr
      2097152 9 reqPost mpOneFile [Except.ok mapField, Except.ok fileSmall]
      [Except.ok fileSmall] [123] [125] [Event.fieldConsumed]
      [Event.fieldConsumed] () [("f", ["variables.file"])] true true true []
      [Event.fieldConsumed, Event.chunkBuffered 1 1,
       Event.uploadSet "variables.file", Event.fileFieldDone "f"] ()
      (by decide) rfl (by decide) rfl rfl rfl rfl (by decide) rfl⟩

/-- C3 counterexample: the upload check does not run before the hook and
does not inspect the constructed operation. Here the engine constructs a
builder that declares no file-variable placeholders, yet because the hook
(which runs first) replaces it by an upload-capable builder, the
multipart request is not failed with the 400 "not an upload operation"
error at all: it executes and yields 200. -/
theorem C3_counterexample :
    extC3.intoQueryBuilder () = Except.ok false ∧
    extC3.isUpload false = false ∧
    (handle_multipart extC3 2097152 9 reqPost mpNoFiles).1 =
      Except.ok (jsonResponse (Except.ok ())) ∧
    (handle_multipart extC3 2097152 9 reqPost mpNoFiles).1 ≠
      Except.error (errorBadRequest "It\x27s not an upload operation") :=
  ⟨rfl, rfl, by decide, by decide⟩

/-- C3 (amended): on the multipart path the not-an-upload check runs
after the customization hook and inspects the post-hook builder: when the
builder produced by the hook (or the constructed builder, when no hook is
present) declares no file-variable placeholders, the handler fails with a
400 "It's not an upload operation" error; and the hook, when present,
is applied exactly once per request, before any file attachment: the
trace holds exactly one hook event and no upload-attachment event
precedes it. -/
theorem C3_upload_check_after_hook :
    (∀ (GQLReq B E D : Type) (ext : Ext GQLReq B E D) (M N : Nat)
       (req : HttpRequest) (mp mp1 mp2 : List (Except HttpError Field))
       (d md : List Nat) (ev1 ev2 : List Event) (gr : GQLReq)
       (m : List (String × List String)) (b b' : B) (hevs : List Event),
       read_multipart mp "operations" = (Except.ok d, mp1, ev1) →
       ext.parseGQLRequest d = Except.ok gr →
       read_multipart mp1 "map" = (Except.ok md, mp2, ev2) →
       ext.parseUploadMap md = Except.ok m →
       ext.intoQueryBuilder gr = Except.ok b →
       applyHook ext req b = (b', hevs) →
       ext.isUpload b' = false →
       handle_multipart ext M N req mp =
         (Except.error (errorBadRequest "It\x27s not an upload operation"),
          ev1 ++ ev2 ++ hevs)) ∧
    (∀ (GQLReq B E D : Type) (ext : Ext GQLReq B E D) (M N : Nat)
       (req : HttpRequest) (mp mp1 mp2 : List (Except HttpError Field))
       (d md : List Nat) (ev1 ev2 : List Event) (gr : GQLReq)
       (m : List (String × List String)) (b : B)
       (hf : HttpRequest → B → B),
       read_multipart mp "operations" = (Except.ok d, mp1, ev1) →
       ext.parseGQLRequest d = Except.ok gr →
       read_multipart mp1 "map" = (Except.ok md, mp2, ev2) →
       ext.parseUploadMap md = Except.ok m →
       ext.intoQueryBuilder gr = Except.ok b →
       ext.onRequest = some hf →
       ∃ pre post,
         (handle_multipart ext M N req mp).2 =
           pre ++ Event.hookApplied :: post ∧
         Event.hookApplied ∉ pre ∧ Event.hookApplied ∉ post ∧
         ∀ p, Event.uploadSet p ∉ pre) := by
  constructor
  · intro GQLReq B E D ext M N req mp mp1 mp2 d md ev1 ev2 gr m b b' hevs h1
      hp h2 hup hib hah hiu
    unfold handle_multipart
    rw [h1]
    simp only [hp]
    rw [h2]
    simp only [hup, hib]
    rw [hah]
    simp [hiu]
  · intro GQLReq B E D ext M N req mp mp1 mp2 d md ev1 ev2 gr m b hf h1 hp h2
      hup hib hof
    have hev1 : ∀ e ∈ ev1, e = Event.fieldConsumed := by
      have h := read_multipart_trace_events mp "operations"
      rw [h1] at h
      exact h
    have hev2 : ∀ e ∈ ev2, e = Event.fieldConsumed := by
      have h := read_multipart_trace_events mp1 "map"
      rw [h2] at h
      exact h
    have hpre : Event.hookApplied ∉ ev1 ++ ev2 ∧
        ∀ p, Event.uploadSet p ∉ ev1 ++ ev2 := by
      constructor
      · intro hmem
        rcases List.mem_append.mp hmem with hmem | hmem
        · exact absurd (hev1 _ hmem) (by simp)
        · exact absurd (hev2 _ hmem) (by simp)
      · intro p hmem
        rcases List.mem_append.mp hmem with hmem | hmem
        · exact absurd (hev1 _ hmem) (by simp)
        · exact absurd (hev2 _ hmem) (by simp)
    unfold handle_multipart
    rw [h1]
    simp only [hp]
    rw [h2]
    simp only [hup, hib, applyHook, hof]
    by_cases hiu : ext.isUpload (hf req b) = false
    · rw [if_pos hiu]
      refine ⟨ev1 ++ ev2, [], by simp, hpre.1, by simp, hpre.2⟩
    · rw [if_neg hiu]
      rcases hrf : read_files ext M N (hf req b) m 0 mp2 with ⟨r, fevs⟩
      have hfevs : Event.hookApplied ∉ fevs := by
        intro hmem
        rcases read_files_events ext M N mp2 (hf req b) m 0 Event.hookApplied
            (by rw [hrf]; exact hmem) with h | h | h | h <;> simp_all
      cases r with
      | error e =>
        refine ⟨ev1 ++ ev2, fevs, by simp, hpre.1, hfevs, hpre.2⟩
      | ok pr =>
        rcases pr with ⟨b'', m'⟩
        dsimp only
        by_cases hm' : m' ≠ []
        · rw [if_pos hm']
          refine ⟨ev1 ++ ev2, fevs, by simp, hpre.1, hfevs, hpre.2⟩
        · rw [if_neg hm']
          refine ⟨ev1 ++ ev2, fevs ++ [Event.executed], by simp, hpre.1,
            ?_, hpre.2⟩
          intro hmem
          rcases List.mem_append.mp hmem with hmem | hmem
          · exact hfevs hmem
          · simp at hmem


/-- Witness for the amended C3: with no hook, a non-upload builder is
rejected with the 400 error; with a hook present, the trace of a full run
holds exactly one hook event, preceded by no upload attachment. -/
theorem C3_upload_check_after_hook_witness :
    handle_multipart extNoUpload 2097152 9 reqPost mpNoFiles =
      (Except.error (errorBadRequest "It\x27s not an upload operation"),
       [Event.fieldConsumed, Event.fieldConsumed]) ∧
    (∃ pre post,
      (handle_multipart extC3 2097152 9 reqPost mpNoFiles).2 =
        pre ++ Event.hookApplied :: post ∧
      Event.hookApplied ∉ pre ∧ Event.hookApplied ∉ post ∧
      ∀ p, Event.uploadSet p ∉ pre) :=
  ⟨C3_upload_check_after_hook.1 Unit Bool Unit Unit extNoUpload 2097152 9
      reqPost mpNoFiles [Except.ok mapField] [] [123] [125]
      [Event.fieldConsumed] [Event.fieldConsumed] () [] false false []
      (by decide) rfl (by decide) rfl rfl rfl rfl,
   C3_upload_check_after_hook.2 Unit Bool Unit Unit extC3 2097152 9
      reqPost mpNoFiles [Except.ok mapField] [] [123] [125]
      [Event.fieldConsumed] [Event.fieldConsumed] () [] false
      (fun _ _ => true) (by decide) rfl (by decide) rfl rfl rfl⟩

theorem sumLens_nil : sumLens [] = 0 := rfl

theorem sumLens_cons (q : List Nat) (qs : List (List Nat)) :
    sumLens (q :: qs) = q.length + sumLens qs := by
  simp [sumLens]

theorem chunkEvents_length :
    ∀ (p : List (List Nat)) (acc : Nat),
      (chunkEvents acc p).length = p.length := by
  intro p
  induction p with
  | nil => intro acc; rfl
  | cons q qs ih => intro acc; simp [chunkEvents, ih]

theorem read_file_data_over (M : Nat) :
    ∀ (p : List (List Nat)) (c : List Nat)
      (rest : List (Except String (List Nat))) (data : List Nat),
      data.length + sumLens p ≤ M →
      M < data.length + sumLens p + c.length →
      read_file_data M data (p.map Except.ok ++ Except.ok c :: rest) =
        (Except.error (errorPayloadTooLarge "payload too large"),
         chunkEvents data.length (p ++ [c])) := by
  intro p
  induction p with
  | nil =>
    intro c rest data h1 h2
    simp only [sumLens_nil] at h1 h2
    rw [List.map_nil, List.nil_append, read_file_data]
    have hgt : (data ++ c).length > M := by
      simp only [List.length_append]
      omega
    rw [if_pos hgt]
    simp [chunkEvents, List.length_append]
  | cons q qs ih =>
    intro c rest data h1 h2
    simp only [sumLens_cons] at h1 h2
    rw [List.map_cons, List.cons_append, read_file_data]
    have hle : ¬((data ++ q).length > M) := by
      simp only [List.length_append]
      omega
    rw [if_neg hle]
    have iheq := ih c rest (data ++ q)
      (by simp only [List.length_append]; omega)
      (by simp only [List.length_append]; omega)
    rw [iheq]
    simp [chunkEvents, List.length_append]

theorem read_file_data_bound (M : Nat) :
    ∀ (cks : List (Except String (List Nat))) (data : List Nat),
      data.length ≤ M →
      ∀ cl t, Event.chunkBuffered cl t ∈ (read_file_data M data cks).2 →
        t ≤ M + cl := by
  intro cks
  induction cks with
  | nil => intro data h cl t hmem; simp [read_file_data] at hmem
  | cons hd tl ih =>
    intro data h cl t hmem
    cases hd with
    | error msg => simp [read_file_data] at hmem
    | ok part =>
      rw [read_file_data] at hmem
      by_cases hgt : (data ++ part).length > M
      · rw [if_pos hgt] at hmem
        simp only [List.mem_singleton, Event.chunkBuffered.injEq] at hmem
        obtain ⟨hcl, ht⟩ := hmem
        subst hcl
        subst ht
        simp only [List.length_append]
        omega
      · rw [if_neg hgt] at hmem
        rcases hrd : read_file_data M (data ++ part) tl with ⟨r, evs⟩
        rw [hrd] at hmem
        simp only [List.mem_cons, Event.chunkBuffered.injEq] at hmem
        rcases hmem with ⟨hcl, ht⟩ | hmem
        · subst hcl
          subst ht
          omega
        · exact ih (data ++ part)
            (by simp only [List.length_append] at hgt ⊢; omega) cl t
            (by rw [hrd]; exact hmem)

/-- C2 counterexample: with maxFileSize 0, a single two-byte chunk is
fully appended to the buffer before the size check, so the buffer reaches
2 bytes, exceeding maxFileSize + 1 = 1; the request does fail with the
413 error, but more than maxFileSize + 1 bytes were buffered. -/
theorem C2_counterexample :
    (handle_multipart extC2 0 9 reqPost mpC2).1 =
      Except.error (errorPayloadTooLarge "payload too large") ∧
    Event.chunkBuffered 2 2 ∈ (handle_multipart extC2 0 9 reqPost mpC2).2 ∧
    ¬(2 ≤ 0 + 1) :=
  ⟨by decide, by decide, by decide⟩

/-- C2 (amended): the size limit is enforced incrementally: a file field
whose accumulated bytes exceed maxFileSize fails immediately after the
offending chunk with the 413 payload-too-large error, consuming exactly
the chunks up to and including that one (the rest of the field is not
drained), and at no point are more than maxFileSize plus the size of the
chunk just appended buffered (not maxFileSize + 1: the bound is
maxFileSize + the largest chunk size); the failure propagates to the
request as a 413 error. -/
theorem C2_size_limit_incremental :
    (∀ (M : Nat) (p : List (List Nat)) (c : List Nat)
       (rest : List (Except String (List Nat))),
       sumLens p ≤ M → M < sumLens p + c.length →
       read_file_data M [] (p.map Except.ok ++ Except.ok c :: rest) =
         (Except.error (errorPayloadTooLarge "payload too large"),
          chunkEvents 0 (p ++ [c]))) ∧
    (∀ (acc : Nat) (p : List (List Nat)),
       (chunkEvents acc p).length = p.length) ∧
    (∀ (M : Nat) (cks : List (Except String (List Nat))) (cl t : Nat),
       Event.chunkBuffered cl t ∈ (read_file_data M [] cks).2 →
       t ≤ M + cl) ∧
    (∀ (GQLReq B E D : Type) (ext : Ext GQLReq B E D) (M N : Nat)
       (req : HttpRequest) (mp mp1 rest : List (Except HttpError Field))
       (d md : List Nat) (ev1 ev2 : List Event) (gr : GQLReq)
       (m m2 : List (String × List String)) (b b' : B) (hevs : List Event)
       (f : Field) (cd : ContentDisposition) (nm fn : String)
       (paths : List String) (e : HttpError) (evc : List Event),
       read_multipart mp "operations" = (Except.ok d, mp1, ev1) →
       ext.parseGQLRequest d = Except.ok gr →
       read_multipart mp1 "map" = (Except.ok md, Except.ok f :: rest, ev2) →
       ext.parseUploadMap md = Except.ok m →
       ext.intoQueryBuilder gr = Except.ok b →
       applyHook ext req b = (b', hevs) →
       ext.isUpload b' = true →
       f.disposition = some cd → cd.name = some nm → cd.filename = some fn →
       hmRemove nm m = (some paths, m2) →
       read_file_data M [] f.chunks = (Except.error e, evc) →
       (handle_multipart ext M N req mp).1 = Except.error e) := by
  refine ⟨?_, ?_, ?_, ?_⟩
  · intro M p c rest h1 h2
    have h := read_file_data_over M p c rest []
      (by simpa using h1) (by simpa using h2)
    simpa using h
  · intro acc p
    exact chunkEvents_length p acc
  · intro M cks cl t hmem
    exact read_file_data_bound M cks [] (Nat.zero_le M) cl t hmem
  · intro GQLReq B E D ext M N req mp mp1 rest d md ev1 ev2 gr m m2 b b' hevs
      f cd nm fn paths e evc h1 hp h2 hup hib hah hiu hd hn hfn hrm hrd
    unfold handle_multipart
    rw [h1]
    simp only [hp]
    rw [h2]
    simp only [hup, hib]
    rw [hah]
    simp only [hiu]
    rw [read_files]
    simp [process_file_field, hd, hn, hfn, hrm, hrd]

/-- Witness for the amended C2: a two-byte chunk against maxFileSize 0
fails immediately with exactly one chunk consumed, the buffer bound
maxFileSize + chunk size holds at the concrete trace entry, and the
concrete request fails with the 413 error. -/
theorem C2_size_limit_incremental_witness :
    read_file_data 0 [] [Except.ok [7, 7]] =
      (Except.error (errorPayloadTooLarge "payload too large"),
       chunkEvents 0 [[7, 7]]) ∧
    (chunkEvents 0 [[7, 7]]).length = 1 ∧
    2 ≤ 0 + 2 ∧
    (handle_multipart extC2 0 9 reqPost mpC2).1 =
      Except.error (errorPayloadTooLarge "payload too large") :=
  ⟨C2_size_limit_incremental.1 0 [] [7, 7] [] (by decide) (by decide),
   C2_size_limit_incremental.2.1 0 [[7, 7]],
   C2_size_limit_incremental.2.2.1 0 [Except.ok [7, 7]] 2 2 (by decide),
   C2_size_limit_incremental.2.2.2 Unit Bool Unit Unit extC2 0 9 reqPost
     mpC2 [Except.ok mapField, Except.ok fileBig] [] [123] [125]
     [Event.fieldConsumed] [Event.fieldConsumed] ()
     [("f", ["variables.file"])] [] true true [] fileBig
     ⟨some "f", some "a.txt"⟩ "f" "a.txt" ["variables.file"]
     (errorPayloadTooLarge "payload too large")
     [Event.chunkBuffered 2 2]
     (by decide) rfl (by decide) rfl rfl rfl rfl rfl rfl rfl (by decide)
     (by decide)⟩

theorem read_files_ok_count_zero {GQLReq B E D : Type} (ext : Ext GQLReq B E D)
    (M N : Nat) (fields : List (Except HttpError Field)) (b : B)
    (m : List (String × List String)) (c : Nat)
    (res : B × List (String × List String)) (tr : List Event)
    (h : read_files ext M N b m c fields = (Except.ok res, tr))
    (hc : countFileDone tr = 0) :
    fields = [] ∧ tr = [] ∧ res = (b, m) := by
  cases fields with
  | nil =>
    rw [read_files] at h
    simp only [Prod.mk.injEq, Except.ok.injEq] at h
    exact ⟨rfl, h.2.symm, h.1.symm⟩
  | cons hd tl =>
    cases hd with
    | error e => rw [read_files] at h; simp at h
    | ok f =>
      rw [read_files] at h
      rcases hpf : process_file_field ext M b m f with ⟨pr, evs⟩
      rw [hpf] at h
      cases pr with
      | error e => simp at h
      | ok trip =>
        rcases trip with ⟨b', m', nm⟩
        dsimp only at h
        by_cases hcnt : c + 1 > N
        · rw [if_pos hcnt] at h; simp at h
        · rw [if_neg hcnt] at h
          rcases hrec : read_files ext M N b' m' (c + 1) tl with ⟨r', evs'⟩
          rw [hrec] at h
          simp only [Prod.mk.injEq] at h
          exfalso
          rw [← h.2] at hc
          simp [countFileDone, List.countP_cons, List.countP_append,
            isFileDone] at hc

theorem read_files_limit {GQLReq B E D : Type} (ext : Ext GQLReq B E D)
    (M n : Nat) :
    ∀ (fields : List (Except HttpError Field)) (b : B)
      (m : List (String × List String)) (c : Nat)
      (res : B × List (String × List String)) (tr : List Event),
      c ≤ n →
      read_files ext M (n + 1) b m c fields = (Except.ok res, tr) →
      ((c + countFileDone tr = n + 1 →
         read_files ext M n b m c fields =
           (Except.error (errorPayloadTooLarge "payload too large"), tr)) ∧
       (c + countFileDone tr ≤ n →
         read_files ext M n b m c fields = (Except.ok res, tr))) := by
  intro fields
  induction fields with
  | nil =>
    intro b m c res tr hc h
    rw [read_files] at h
    simp only [Prod.mk.injEq, Except.ok.injEq] at h
    obtain ⟨hres, htr⟩ := h
    constructor
    · intro habs
      exfalso
      rw [← htr] at habs
      simp [countFileDone] at habs
      omega
    · intro _
      rw [read_files, hres, htr]
  | cons hd tl ih =>
    intro b m c res tr hc h
    cases hd with
    | error e => rw [read_files] at h; simp at h
    | ok f =>
      rw [read_files] at h
      rcases hpf : process_file_field ext M b m f with ⟨pr, evs⟩
      rw [hpf] at h
      cases pr with
      | error e => simp at h
      | ok trip =>
        rcases trip with ⟨b', m', nm⟩
        dsimp only at h
        have hnotgt : ¬(c + 1 > n + 1) := by omega
        rw [if_neg hnotgt] at h
        rcases hrec : read_files ext M (n + 1) b' m' (c + 1) tl with ⟨r', evs'⟩
        rw [hrec] at h
        simp only [Prod.mk.injEq] at h
        obtain ⟨hr', htr⟩ := h
        subst hr'
        have hevszero : countFileDone evs = 0 := by
          rw [countFileDone, List.countP_eq_zero]
          intro e he
          rcases process_file_field_events ext M b m f e
              (by rw [hpf]; exact he) with ⟨cl, t, hh⟩ | ⟨p, hh⟩ <;>
            simp [hh, isFileDone]
        have hcount : countFileDone tr = 1 + countFileDone evs' := by
          have h0 : List.countP isFileDone evs = 0 := hevszero
          rw [← htr]
          simp [countFileDone, List.countP_append, List.countP_cons,
            isFileDone]
          omega
        rw [read_files, hpf]
        dsimp only
        by_cases hcn : c + 1 > n
        · rw [if_pos hcn]
          constructor
          · intro hsum
            have hz : countFileDone evs' = 0 := by omega
            obtain ⟨htl, hevs', hres⟩ :=
              read_files_ok_count_zero ext M (n + 1) tl b' m' (c + 1) res
                evs' hrec hz
            rw [← htr, hevs']
            simp
          · intro hsum
            exfalso
            omega
        · rw [if_neg hcn]
          obtain ⟨ih1, ih2⟩ :=
            ih b' m' (c + 1) res evs' (by omega) hrec
          constructor
          · intro hsum
            rw [ih1 (by omega)]
            dsimp only
            rw [htr]
          · intro hsum
            rw [ih2 (by omega)]
            dsimp only
            rw [htr]

/-- C6: A multipart request supplying maxFileCount + 1 file parts, each
individually within the size limit and matching a map key (encoded as:
the same file loop run with limit maxFileCount + 1 succeeds, recording
maxFileCount + 1 completed file fields), is rejected with the 413
payload-too-large error, with an identical trace: every one of the file
parts, in particular the first maxFileCount, was fully processed
(buffered and attached) before the rejection; with at most maxFileCount
file parts the run with limit maxFileCount is identical to the successful
one, so the count check never rejects it; and a file-loop failure
propagates to the request as the same error. -/
theorem C6_file_count_limit :
    (∀ (GQLReq B E D : Type) (ext : Ext GQLReq B E D) (M n : Nat) (b : B)
       (m : List (String × List String))
       (fields : List (Except HttpError Field))
       (res : B × List (String × List String)) (tr : List Event),
       read_files ext M (n + 1) b m 0 fields = (Except.ok res, tr) →
       ((countFileDone tr = n + 1 →
          read_files ext M n b m 0 fields =
            (Except.error (errorPayloadTooLarge "payload too large"), tr)) ∧
        (countFileDone tr ≤ n →
          read_files ext M n b m 0 fields = (Except.ok res, tr)))) ∧
    (∀ (GQLReq B E D : Type) (ext : Ext GQLReq B E D) (M N : Nat)
       (req : HttpRequest) (mp mp1 mp2 : List (Except HttpError Field))
       (d md : List Nat) (ev1 ev2 : List Event) (gr : GQLReq)
       (m : List (String × List String)) (b b' : B)
       (hevs fevs : List Event) (e : HttpError),
       read_multipart mp "operations" = (Except.ok d, mp1, ev1) →
       ext.parseGQLRequest d = Except.ok gr →
       read_multipart mp1 "map" = (Except.ok md, mp2, ev2) →
       ext.parseUploadMap md = Except.ok m →
       ext.intoQueryBuilder gr = Except.ok b →
       applyHook ext req b = (b', hevs) →
       ext.isUpload b' = true →
       read_files ext M N b' m 0 mp2 = (Except.error e, fevs) →
       handle_multipart ext M N req mp =
         (Except.error e, ev1 ++ ev2 ++ hevs ++ fevs)) := by
  constructor
  · intro GQLReq B E D ext M n b m fields res tr h
    obtain ⟨h1, h2⟩ :=
      read_files_limit ext M n fields b m 0 res tr (Nat.zero_le n) h
    exact ⟨fun hs' => h1 (by omega), fun hs' => h2 (by omega)⟩
  · intro GQLReq B E D ext M N req mp mp1 mp2 d md ev1 ev2 gr m b b' hevs
      fevs e h1 hp h2 hup hib hah hiu hrf
    unfold handle_multipart
    rw [h1]
    simp only [hp]
    rw [h2]
    simp only [hup, hib]
    rw [hah]
    simp [hiu, hrf]

/-- Witness for C6: one file part against limit 0 is rejected with 413
after being fully processed (its chunk, attachment and completion events
are all in the trace); the same part against limit 1 is accepted; and the
concrete over-count request is rejected with 413. -/
theorem C6_file_count_limit_witness :
    read_files extC2 5 0 true [("f", ["variables.file"])] 0
        [Except.ok fileSmall] =
      (Except.error (errorPayloadTooLarge "payload too large"),
       [Event.fieldConsumed, Event.chunkBuffered 1 1,
        Event.uploadSet "variables.file", Event.fileFieldDone "f"]) ∧
    read_files extC2 5 1 true [("f", ["variables.file"])] 0
        [Except.ok fileSmall] =
      (Except.ok (true, []),
       [Event.fieldConsumed, Event.chunkBuffered 1 1,
        Event.uploadSet "variables.file", Event.fileFieldDone "f"]) ∧
    handle_multipart extC2 5 0 reqPost mpOneFile =
      (Except.error (errorPayloadTooLarge "payload too large"),
       [Event.fieldConsumed, Event.fieldConsumed, Event.fieldConsumed,
        Event.chunkBuffered 1 1, Event.uploadSet "variables.file",
        Event.fileFieldDone "f"]) :=
  ⟨((C6_file_count_limit.1 Unit Bool Unit Unit extC2 5 0 true
        [("f", ["variables.file"])] [Except.ok fileSmall] (true, [])
        [Event.fieldConsumed, Event.chunkBuffered 1 1,
         Event.uploadSet "variables.file", Event.fileFieldDone "f"]
        (by decide)).1) (by decide),
   ((C6_file_count_limit.1 Unit Bool Unit Unit extC2 5 1 true
        [("f", ["variables.file"])] [Except.ok fileSmall] (true, [])
        [Event.fieldConsumed, Event.chunkBuffered 1 1,
         Event.uploadSet "variables.file", Event.fileFieldDone "f"]
        (by decide)).2) (by decide),
   C6_file_count_limit.2 Unit Bool Unit Unit extC2 5 0 reqPost mpOneFile
     [Except.ok mapField, Except.ok fileSmall] [Except.ok fileSmall]
     [123] [125] [Event.fieldConsumed] [Event.fieldConsumed] ()
     [("f", ["variables.file"])] true true []
     [Event.fieldConsumed, Event.chunkBuffered 1 1,
      Event.uploadSet "variables.file", Event.fileFieldDone "f"]
     (errorPayloadTooLarge "payload too large")
     (by decide) rfl (by decide) rfl rfl rfl rfl (by decide)⟩

end AGW
